import Mathlib

/-!
# Verification of the Integrated Hallucination Detection System

A shallow embedding in Lean 4 of the algorithmic core of the repository:
the two scoring backends (`src/HHEM_API.py`, `src/qwen_hallucination_evaluator.py`),
the ensemble combiner (`src/integrated_hallucination_evaluator.py`),
the dataset repository and sampler (`src/ragtruth_loader.py`), and the
metrics / threshold harnesses (`examples/ragtruth_evaluation.py`,
`examples/ragtruth_large_scale_evaluation.py`).

Python floats are modelled as rationals (the claimed identities are exact
arithmetic identities); network transports are modelled as explicit input
values enumerating the outcome cases the Python code distinguishes; the
Python functions themselves are translated line by line.
-/

namespace IHDS

/-- Models the check `not s.strip()` used by both backends: true iff the
string is empty or consists only of whitespace characters. -/
def isSpaceChar (c : Char) : Bool :=
  c = ' ' || c = '\t' || c = '\n' || c = '\r' || c = '\x0b' || c = '\x0c'

/-- `isBlank s` models Python `not s.strip()` (empty or whitespace-only). -/
def isBlank (s : String) : Bool :=
  s.data.all isSpaceChar

/-- Models Python `s.lower()`: character-wise lowercasing (identity on the
non-ASCII characters that occur in the embedded keyword lists). Defined on
the character list so it reduces in the kernel. -/
def strToLower (s : String) : String :=
  ⟨s.data.map Char.toLower⟩

/-- `startsWithList pat l` is true iff `pat` is an initial segment of `l`. -/
def startsWithList {α : Type} [DecidableEq α] : List α → List α → Bool
  | [], _ => true
  | _ :: _, [] => false
  | a :: as, b :: bs => a = b && startsWithList as bs

/-- `containsList pat l` is true iff `pat` occurs contiguously in `l`. -/
def containsList {α : Type} [DecidableEq α] (pat : List α) : List α → Bool
  | [] => startsWithList pat []
  | b :: bs => startsWithList pat (b :: bs) || containsList pat bs

/-- Models the Python substring test `pat in s`. -/
def strContains (s pat : String) : Bool :=
  containsList pat.data s.data

/-- Models `any(keyword in text for keyword in keys)`. -/
def containsAny (s : String) (keys : List String) : Bool :=
  keys.any (fun k => strContains s k)

/-! ## HHEM backend (`src/HHEM_API.py`) -/

/-- `HHEMResponse` from `HHEM_API.py` (the free-form `raw_response` dict is
not part of any claim and is omitted). -/
structure HHEMResponse where
  score : ℚ
  success : Bool
  error_message : Option String := none
  deriving DecidableEq

/-- Outcome of the HTTP call made by `evaluate_consistency`, one constructor
per case the Python code distinguishes.  `ok score` is a 200 response whose
JSON body yielded `result.get('score', 0.0)` = `score`. -/
inductive HHEMTransport where
  | ok (score : ℚ)
  | httpError (status : ℕ) (body : String)
  | timeout
  | requestError (msg : String)
  | jsonDecodeError (msg : String)
  | otherError (msg : String)
  deriving DecidableEq

/-- `HHEMFactualConsistencyAPI.evaluate_consistency`, with the network call
abstracted into the explicit `transport` input. -/
def evaluate_consistency (generated_text : String) (source_texts : List String)
    (transport : HHEMTransport) : HHEMResponse :=
  if isBlank generated_text then
    { score := 0, success := false, error_message := some "生成文本不能为空" }
  else if source_texts.isEmpty || source_texts.all isBlank then
    { score := 0, success := false, error_message := some "源文本不能为空" }
  else
    match transport with
    | .ok score => { score := score, success := true }
    | .httpError status body =>
        { score := 0, success := false,
          error_message := some ("HTTP " ++ toString status ++ ": " ++ body) }
    | .timeout => { score := 0, success := false, error_message := some "请求超时" }
    | .requestError msg =>
        { score := 0, success := false, error_message := some ("请求异常: " ++ msg) }
    | .jsonDecodeError msg =>
        { score := 0, success := false, error_message := some ("响应JSON解析错误: " ++ msg) }
    | .otherError msg =>
        { score := 0, success := false, error_message := some ("未知错误: " ++ msg) }

/-- `HHEMFactualConsistencyAPI.interpret_score`. -/
def hhem_interpret_score (score : ℚ) : String :=
  if score ≥ 4/5 then "高度一致 - 生成文本与源文本在事实上高度符合"
  else if score ≥ 3/5 then "较为一致 - 生成文本与源文本基本符合，存在轻微差异"
  else if score ≥ 2/5 then "部分一致 - 生成文本与源文本存在明显差异"
  else if score ≥ 1/5 then "不太一致 - 生成文本与源文本存在严重差异"
  else "严重不一致 - 生成文本与源文本在事实上严重冲突"

/-! ## Qwen backend (`src/qwen_hallucination_evaluator.py`) -/

/-- `QwenHallucinationResponse` from `qwen_hallucination_evaluator.py`
(`raw_response` omitted as above). -/
structure QwenHallucinationResponse where
  hallucination_score : ℚ
  confidence : ℚ
  explanation : String
  success : Bool
  error_message : Option String := none
  deriving DecidableEq

/-- The model answer extracted from a 200 response with `choices`.
`json hs c e` means `json.loads` succeeded and the three `get`-with-default
lookups produced `hs`, `c`, `e`; `text raw` means `json.loads` raised
`JSONDecodeError` on the raw answer `raw`. -/
inductive QwenAnswer where
  | json (hallucination_score confidence : ℚ) (explanation : String)
  | text (raw : String)
  deriving DecidableEq

/-- Outcome of the DashScope `Generation.call`, one constructor per case the
Python code distinguishes. -/
inductive QwenTransport where
  | ok (answer : QwenAnswer)
  | missingChoices
  | badStatus (code : ℕ) (msg : String)
  | exn (msg : String)
  deriving DecidableEq

/-- `QwenHallucinationEvaluator._parse_text_response`: keyword-based severity
estimate used when the model answer is not valid JSON. -/
def parse_text_response (text_response : String) : QwenHallucinationResponse :=
  let text_lower := strToLower text_response
  let score : ℚ :=
    if containsAny text_lower ["严重幻觉", "完全错误", "严重不符"] then 9/10
    else if containsAny text_lower ["存在幻觉", "部分错误", "不准确"] then 3/5
    else if containsAny text_lower ["轻微问题", "基本准确"] then 3/10
    else if containsAny text_lower ["无幻觉", "完全准确", "符合事实"] then 1/10
    else 1/2
  { hallucination_score := score,
    confidence := 7/10,
    explanation := "基于文本分析的评估: " ++ (⟨text_response.data.take 200⟩ : String) ++ "...",
    success := true }

/-- `QwenHallucinationEvaluator.evaluate_hallucination`, with the SDK call
abstracted into the explicit `transport` input. -/
def evaluate_hallucination (generated_text : String) (source_texts : List String)
    (transport : QwenTransport) : QwenHallucinationResponse :=
  if isBlank generated_text then
    { hallucination_score := 1, confidence := 1,
      explanation := "生成文本为空，视为完全幻觉", success := false,
      error_message := some "生成文本不能为空" }
  else if source_texts.isEmpty || source_texts.all isBlank then
    { hallucination_score := 1, confidence := 0,
      explanation := "缺少参考文档，无法进行准确评估", success := false,
      error_message := some "参考文档不能为空" }
  else
    match transport with
    | .ok (.json hs c expl) =>
        { hallucination_score := hs, confidence := c, explanation := expl, success := true }
    | .ok (.text raw) => parse_text_response raw
    | .missingChoices =>
        { hallucination_score := 1/2, confidence := 0, explanation := "API响应格式异常",
          success := false, error_message := some "响应中缺少choices字段" }
    | .badStatus code msg =>
        { hallucination_score := 1/2, confidence := 0, explanation := "API调用失败",
          success := false,
          error_message := some ("状态码 " ++ toString code ++ ": " ++ msg) }
    | .exn msg =>
        { hallucination_score := 1/2, confidence := 0, explanation := "调用异常",
          success := false, error_message := some ("调用异常: " ++ msg) }

/-- `QwenHallucinationEvaluator.interpret_score`. -/
def qwen_interpret_score (score : ℚ) : String :=
  if score ≥ 4/5 then "严重幻觉 - 生成文本包含大量虚假或不准确信息"
  else if score ≥ 3/5 then "明显幻觉 - 生成文本存在明显的事实错误"
  else if score ≥ 2/5 then "轻微幻觉 - 生成文本存在一些不准确之处"
  else if score ≥ 1/5 then "基本准确 - 生成文本大部分准确，存在轻微问题"
  else "高度准确 - 生成文本与参考文档高度一致"

/-! ## Integrated evaluator (`src/integrated_hallucination_evaluator.py`) -/

/-- `EvaluationMethod` enum. -/
inductive EvaluationMethod where
  | HHEM_ONLY
  | QWEN_ONLY
  | BOTH
  | ENSEMBLE
  deriving DecidableEq

/-- `IntegratedEvaluationResult` dataclass (field-for-field, minus the
free-form raw responses which no claim mentions). -/
structure IntegratedEvaluationResult where
  method_used : EvaluationMethod
  success : Bool := false
  hhem_score : Option ℚ := none
  hhem_success : Bool := false
  hhem_interpretation : Option String := none
  qwen_hallucination_score : Option ℚ := none
  qwen_confidence : Option ℚ := none
  qwen_success : Bool := false
  qwen_explanation : Option String := none
  qwen_interpretation : Option String := none
  ensemble_score : Option ℚ := none
  ensemble_confidence : Option ℚ := none
  ensemble_interpretation : Option String := none
  error_messages : List String := []
  deriving DecidableEq

/-- Models the Python expression `c or d` on an optional float `c`:
`None` and `0.0` are both falsy, so they yield the default `d`. -/
def pyOrConf (c : Option ℚ) (d : ℚ) : ℚ :=
  match c with
  | some v => if v = 0 then d else v
  | none => d

/-- `IntegratedHallucinationEvaluator._interpret_ensemble_score`. -/
def interpret_ensemble_score (score : ℚ) (num_evaluators : ℕ) : String :=
  let base :=
    if score ≥ 4/5 then "严重幻觉风险 - 生成文本存在明显的事实错误或虚假信息"
    else if score ≥ 3/5 then "中等幻觉风险 - 生成文本存在一些不准确或可疑的内容"
    else if score ≥ 2/5 then "轻微幻觉风险 - 生成文本大部分准确，但存在细节问题"
    else if score ≥ 1/5 then "低幻觉风险 - 生成文本与参考文档基本一致"
    else "极低幻觉风险 - 生成文本高度准确和可信"
  base ++ " (基于" ++ toString num_evaluators ++ "个评估器的集成结果)"

/-- The (severity, confidence) pairs collected by
`_compute_ensemble_result` lines 196-207: the HHEM score is flipped onto the
severity axis with fixed confidence 0.9; the Qwen score is used as-is with
confidence `result.qwen_confidence or 0.7`. -/
def collect_pairs (result : IntegratedEvaluationResult) : List (ℚ × ℚ) :=
  (if result.hhem_success then
     match result.hhem_score with
     | some s => [(1 - s, (9 : ℚ)/10)]
     | none => []
   else []) ++
  (if result.qwen_success then
     match result.qwen_hallucination_score with
     | some s => [(s, pyOrConf result.qwen_confidence (7/10))]
     | none => []
   else [])

/-- `IntegratedHallucinationEvaluator._compute_ensemble_result`. -/
def compute_ensemble_result (result : IntegratedEvaluationResult) :
    IntegratedEvaluationResult :=
  let pairs := collect_pairs result
  let scores := pairs.map Prod.fst
  let confidences := pairs.map Prod.snd
  if pairs.isEmpty then result
  else
    let es : ℚ :=
      if pairs.length > 1 then
        let weight_sum := confidences.sum
        let weighted_sum := (pairs.map (fun p => p.1 * p.2)).sum
        if weight_sum > 0 then weighted_sum / weight_sum
        else scores.sum / (scores.length : ℚ)
      else scores.headI
    let ec : ℚ :=
      if pairs.length > 1 then confidences.sum / (confidences.length : ℚ)
      else confidences.headI
    { result with
      ensemble_score := some es,
      ensemble_confidence := some ec,
      ensemble_interpretation := some (interpret_ensemble_score es pairs.length) }

/-- Renders an optional error message the way a Python f-string renders it
(`None` prints as "None"). -/
def optStr : Option String → String
  | some s => s
  | none => "None"

/-- The HHEM branch of `evaluate` (lines 120-132): runs only when the method
involves HHEM; when the evaluator was not constructed it only appends an
error message. -/
def run_hhem_branch (generated_text : String) (source_texts : List String)
    (method : EvaluationMethod) (hhem_evaluator : Option HHEMTransport)
    (r : IntegratedEvaluationResult) : IntegratedEvaluationResult :=
  if method = .HHEM_ONLY ∨ method = .BOTH ∨ method = .ENSEMBLE then
    match hhem_evaluator with
    | some transport =>
        let hhem_result := evaluate_consistency generated_text source_texts transport
        { r with
          hhem_score := if hhem_result.success then some hhem_result.score else none,
          hhem_success := hhem_result.success,
          hhem_interpretation :=
            if hhem_result.success then some (hhem_interpret_score hhem_result.score)
            else none,
          error_messages :=
            if hhem_result.success then r.error_messages
            else r.error_messages ++
              ["HHEM评估失败: " ++ optStr hhem_result.error_message] }
    | none => { r with error_messages := r.error_messages ++ ["HHEM评估器未初始化"] }
  else r

/-- The Qwen branch of `evaluate` (lines 134-148). -/
def run_qwen_branch (generated_text : String) (source_texts : List String)
    (method : EvaluationMethod) (qwen_evaluator : Option QwenTransport)
    (r : IntegratedEvaluationResult) : IntegratedEvaluationResult :=
  if method = .QWEN_ONLY ∨ method = .BOTH ∨ method = .ENSEMBLE then
    match qwen_evaluator with
    | some transport =>
        let qwen_result := evaluate_hallucination generated_text source_texts transport
        { r with
          qwen_hallucination_score :=
            if qwen_result.success then some qwen_result.hallucination_score else none,
          qwen_confidence := if qwen_result.success then some qwen_result.confidence else none,
          qwen_success := qwen_result.success,
          qwen_explanation := if qwen_result.success then some qwen_result.explanation else none,
          qwen_interpretation :=
            if qwen_result.success then
              some (qwen_interpret_score qwen_result.hallucination_score)
            else none,
          error_messages :=
            if qwen_result.success then r.error_messages
            else r.error_messages ++
              ["Qwen评估失败: " ++ optStr qwen_result.error_message] }
    | none => { r with error_messages := r.error_messages ++ ["Qwen评估器未初始化"] }
  else r

/-- The overall-success assignment at the end of `evaluate` (lines 154-160). -/
def set_overall_success (method : EvaluationMethod)
    (r : IntegratedEvaluationResult) : IntegratedEvaluationResult :=
  { r with success :=
      (r.hhem_success && decide (method = .HHEM_ONLY)) ||
      (r.qwen_success && decide (method = .QWEN_ONLY)) ||
      (decide (method = .BOTH ∨ method = .ENSEMBLE) &&
        (r.hhem_success || r.qwen_success)) }

/-- `IntegratedHallucinationEvaluator.evaluate`.  The two optional evaluator
handles are `none` when the corresponding API key was absent at construction
time; when present they carry the transport outcome of the one backend call
this evaluation makes. -/
def evaluate (generated_text : String) (source_texts : List String)
    (method : EvaluationMethod) (hhem_evaluator : Option HHEMTransport)
    (qwen_evaluator : Option QwenTransport) : IntegratedEvaluationResult :=
  let r0 : IntegratedEvaluationResult := { method_used := method }
  let r1 := run_hhem_branch generated_text source_texts method hhem_evaluator r0
  let r2 := run_qwen_branch generated_text source_texts method qwen_evaluator r1
  let r3 := if method = .ENSEMBLE then compute_ensemble_result r2 else r2
  set_overall_success method r3

/-! ## RAGtruth loader (`src/ragtruth_loader.py`) -/

/-- `TaskType` enum. -/
inductive TaskType where
  | SUMMARY
  | QA
  | ALL
  deriving DecidableEq

/-- The `.value` string of each `TaskType` member. -/
def TaskType.value : TaskType → String
  | .SUMMARY => "Summary"
  | .QA => "QA"
  | .ALL => "ALL"

/-- `SplitType` enum. -/
inductive SplitType where
  | TRAIN
  | TEST
  | ALL
  deriving DecidableEq

/-- The `.value` string of each `SplitType` member. -/
def SplitType.value : SplitType → String
  | .TRAIN => "train"
  | .TEST => "test"
  | .ALL => "all"

/-- `HallucinationLabel` dataclass (`end` is a Lean keyword, hence `end_`). -/
structure HallucinationLabel where
  start : ℤ
  end_ : ℤ
  text : String
  label_type : String
  meta : String
  due_to_null : Option Bool := none
  implicit_true : Option Bool := none
  deriving DecidableEq

/-- `RAGtruthResponse` dataclass. -/
structure RAGtruthResponse where
  id : String
  source_id : String
  model : String
  temperature : ℚ
  labels : List HallucinationLabel
  split : String
  quality : String
  response : String
  deriving DecidableEq

/-- `RAGtruthResponse.has_hallucination`. -/
def RAGtruthResponse.has_hallucination (r : RAGtruthResponse) : Bool :=
  r.labels.length > 0

/-- The `source_info` field: a JSON string or a JSON object with optional
`passages` / `question` keys (`other` is the stringification `str(d)` of an
object with neither key). -/
inductive SourceInfo where
  | str (s : String)
  | dict (passages question : Option String) (stringified : String)
  deriving DecidableEq

/-- `RAGtruthSource` dataclass. -/
structure RAGtruthSource where
  source_id : String
  task_type : String
  source : String
  source_info : SourceInfo
  prompt : String
  deriving DecidableEq

/-- `RAGtruthSample` dataclass. -/
structure RAGtruthSample where
  source : RAGtruthSource
  response : RAGtruthResponse
  deriving DecidableEq

/-- `RAGtruthSample.generated_text`. -/
def RAGtruthSample.generated_text (s : RAGtruthSample) : String :=
  s.response.response

/-- `RAGtruthSample.source_texts`. -/
def RAGtruthSample.source_texts (s : RAGtruthSample) : List String :=
  match s.source.source_info with
  | .str t => [t]
  | .dict passages question stringified =>
      let texts := passages.toList ++ (question.map (fun q => "Question: " ++ q)).toList
      if texts.isEmpty then [stringified] else texts

/-- The Python dict comprehension `{s.source_id: s for s in sources}`:
when several sources share an id the last one wins, so lookup searches the
reversed list. -/
def source_lookup (sources : List RAGtruthSource) (sid : String) :
    Option RAGtruthSource :=
  sources.reverse.find? (fun s => s.source_id = sid)

/-- The response filter of `get_samples` (lines 230-250): task type (via the
joined source), split, and hallucination flag, composed with logical AND. -/
def passes_filters (sources : List RAGtruthSource) (task_type : TaskType)
    (split : SplitType) (has_hallucination : Option Bool)
    (r : RAGtruthResponse) : Bool :=
  (if task_type ≠ TaskType.ALL then
     match source_lookup sources r.source_id with
     | none => false
     | some s => s.task_type = task_type.value
   else true) &&
  (split = SplitType.ALL || r.split = split.value) &&
  (match has_hallucination with
   | none => true
   | some b => r.has_hallucination = b)

/-- The sample list built by `get_samples` before the sampling step
(lines 230-258): filtered responses joined with their source record;
a response whose `source_id` has no source record is dropped. -/
def filtered_samples (responses : List RAGtruthResponse)
    (sources : List RAGtruthSource) (task_type : TaskType) (split : SplitType)
    (has_hallucination : Option Bool) : List RAGtruthSample :=
  (responses.filter (passes_filters sources task_type split has_hallucination)).filterMap
    (fun r => (source_lookup sources r.source_id).map
      (fun s => { source := s, response := r }))

/-- One step of the pseudo-random generator backing `random.sample`.
Python uses a Mersenne Twister; the embedding uses a 64-bit linear
congruential generator — what the claims rely on (the drawn subset is a
deterministic function of the seeded state and is drawn from the
population) is preserved. -/
def lcgNext (st : ℕ) : ℕ :=
  (6364136223846793005 * st + 1442695040888963407) % 18446744073709551616

/-- The generator state reached by `random.seed(seed)`. -/
def seedState (seed : ℕ) : ℕ := seed

/-- Models `random.sample(l, k)` run on generator state `st`: draws `k`
items without replacement, each chosen by the next generator output. -/
def pySample {α : Type} : ℕ → List α → ℕ → List α
  | _, _, 0 => []
  | st, l, k + 1 =>
    if l.isEmpty then []
    else
      let st2 := lcgNext st
      let i := st2 % l.length
      l[i]?.toList ++ pySample st2 (l.eraseIdx i) k

/-- `RAGtruthLoader.get_samples`.  `rng` is the ambient global generator
state, used only when `random_seed is None`; `max_samples` is `Option ℕ`
(`none` = Python `None`; every call site passes `None` or a non-negative
count, and `some 0` models the falsy `0`). -/
def get_samples (rng : ℕ) (responses : List RAGtruthResponse)
    (sources : List RAGtruthSource) (task_type : TaskType) (split : SplitType)
    (has_hallucination : Option Bool) (max_samples : Option ℕ)
    (random_seed : Option ℕ) : List RAGtruthSample :=
  let samples := filtered_samples responses sources task_type split has_hallucination
  match max_samples with
  | none => samples
  | some m =>
      if m ≠ 0 ∧ samples.length > m then
        let st := match random_seed with
          | some s => seedState s
          | none => rng
        pySample st samples m
      else samples

/-! ## Metrics (`examples/ragtruth_evaluation.py`) -/

/-- The confusion-matrix part of the `EvaluationMetrics` dataclass (the
success-rate and score-collection fields play no part in the metric
formulas). -/
structure EvaluationMetrics where
  true_positives : ℕ := 0
  false_positives : ℕ := 0
  true_negatives : ℕ := 0
  false_negatives : ℕ := 0
  deriving DecidableEq

/-- `EvaluationMetrics.accuracy`. -/
def EvaluationMetrics.accuracy (m : EvaluationMetrics) : ℚ :=
  let total := m.true_positives + m.false_positives + m.true_negatives + m.false_negatives
  if total = 0 then 0
  else ((m.true_positives + m.true_negatives : ℕ) : ℚ) / (total : ℚ)

/-- `EvaluationMetrics.precision`. -/
def EvaluationMetrics.precision (m : EvaluationMetrics) : ℚ :=
  if m.true_positives + m.false_positives = 0 then 0
  else (m.true_positives : ℚ) / ((m.true_positives + m.false_positives : ℕ) : ℚ)

/-- `EvaluationMetrics.recall`. -/
def EvaluationMetrics.recall (m : EvaluationMetrics) : ℚ :=
  if m.true_positives + m.false_negatives = 0 then 0
  else (m.true_positives : ℚ) / ((m.true_positives + m.false_negatives : ℕ) : ℚ)

/-- `EvaluationMetrics.f1_score`. -/
def EvaluationMetrics.f1_score (m : EvaluationMetrics) : ℚ :=
  if m.precision + m.recall = 0 then 0
  else 2 * (m.precision * m.recall) / (m.precision + m.recall)

/-! ## Threshold decisions of the two dataset harnesses -/

/-- The per-sample decision of
`examples/ragtruth_large_scale_evaluation.py::evaluate_samples`
(lines 121-132): returns `some (score, predicted_hallucination)`, or `none`
when the `else: continue` branch skips the sample.  HHEM_ONLY predicts
hallucination when the consistency score is BELOW the threshold. -/
def evaluate_samples_decision (hallucination_threshold qwen_threshold : ℚ)
    (method : EvaluationMethod) (result : IntegratedEvaluationResult) :
    Option (ℚ × Bool) :=
  if method = .HHEM_ONLY ∧ result.hhem_score.isSome then
    result.hhem_score.map (fun score => (score, decide (score < hallucination_threshold)))
  else if method = .QWEN_ONLY ∧ result.qwen_hallucination_score.isSome then
    result.qwen_hallucination_score.map
      (fun score => (score, decide (score > qwen_threshold)))
  else if (method = .BOTH ∨ method = .ENSEMBLE) ∧ result.ensemble_score.isSome then
    result.ensemble_score.map
      (fun score => (score, decide (score > hallucination_threshold)))
  else none

/-- The per-sample decision of
`examples/ragtruth_evaluation.py::evaluate_on_dataset` (lines 171-185):
`predicted_hallucination` starts as `False` and `score_to_use` as `None`.
HHEM_ONLY predicts hallucination when the consistency score is ABOVE the
threshold (`result.hhem_score > self.hallucination_threshold`, line 176). -/
def evaluate_on_dataset_decision (hallucination_threshold : ℚ)
    (evaluation_method : EvaluationMethod)
    (result : IntegratedEvaluationResult) : Bool × Option ℚ :=
  if evaluation_method = .HHEM_ONLY ∧ result.hhem_score.isSome then
    match result.hhem_score with
    | some score => (decide (score > hallucination_threshold), some score)
    | none => (false, none)
  else if evaluation_method = .QWEN_ONLY ∧ result.qwen_hallucination_score.isSome then
    match result.qwen_hallucination_score with
    | some score => (decide (score > hallucination_threshold), some score)
    | none => (false, none)
  else if (evaluation_method = .BOTH ∨ evaluation_method = .ENSEMBLE) ∧
      result.ensemble_score.isSome then
    match result.ensemble_score with
    | some score => (decide (score > hallucination_threshold), some score)
    | none => (false, none)
  else (false, none)

/-! ## Helper lemmas -/

theorem run_hhem_branch_qwen_fields (gt : String) (sts : List String)
    (m : EvaluationMethod) (he : Option HHEMTransport)
    (r : IntegratedEvaluationResult) :
    (run_hhem_branch gt sts m he r).qwen_success = r.qwen_success ∧
    (run_hhem_branch gt sts m he r).qwen_hallucination_score = r.qwen_hallucination_score ∧
    (run_hhem_branch gt sts m he r).qwen_confidence = r.qwen_confidence ∧
    (run_hhem_branch gt sts m he r).ensemble_score = r.ensemble_score ∧
    (run_hhem_branch gt sts m he r).ensemble_confidence = r.ensemble_confidence := by
  unfold run_hhem_branch
  split
  · cases he <;> exact ⟨rfl, rfl, rfl, rfl, rfl⟩
  · exact ⟨rfl, rfl, rfl, rfl, rfl⟩

theorem run_qwen_branch_hhem_fields (gt : String) (sts : List String)
    (m : EvaluationMethod) (qe : Option QwenTransport)
    (r : IntegratedEvaluationResult) :
    (run_qwen_branch gt sts m qe r).hhem_success = r.hhem_success ∧
    (run_qwen_branch gt sts m qe r).hhem_score = r.hhem_score ∧
    (run_qwen_branch gt sts m qe r).ensemble_score = r.ensemble_score ∧
    (run_qwen_branch gt sts m qe r).ensemble_confidence = r.ensemble_confidence := by
  unfold run_qwen_branch
  split
  · cases qe <;> exact ⟨rfl, rfl, rfl, rfl⟩
  · exact ⟨rfl, rfl, rfl, rfl⟩

theorem compute_ensemble_result_preserved (r : IntegratedEvaluationResult) :
    (compute_ensemble_result r).hhem_success = r.hhem_success ∧
    (compute_ensemble_result r).hhem_score = r.hhem_score ∧
    (compute_ensemble_result r).qwen_success = r.qwen_success ∧
    (compute_ensemble_result r).qwen_hallucination_score = r.qwen_hallucination_score ∧
    (compute_ensemble_result r).qwen_confidence = r.qwen_confidence := by
  by_cases h : (collect_pairs r).isEmpty = true <;>
    simp [compute_ensemble_result, h]

theorem set_overall_success_preserved (m : EvaluationMethod)
    (r : IntegratedEvaluationResult) :
    (set_overall_success m r).hhem_success = r.hhem_success ∧
    (set_overall_success m r).hhem_score = r.hhem_score ∧
    (set_overall_success m r).qwen_success = r.qwen_success ∧
    (set_overall_success m r).qwen_hallucination_score = r.qwen_hallucination_score ∧
    (set_overall_success m r).qwen_confidence = r.qwen_confidence ∧
    (set_overall_success m r).ensemble_score = r.ensemble_score ∧
    (set_overall_success m r).ensemble_confidence = r.ensemble_confidence :=
  ⟨rfl, rfl, rfl, rfl, rfl, rfl, rfl⟩

theorem collect_pairs_nil (r : IntegratedEvaluationResult)
    (h1 : r.hhem_success = false) (h2 : r.qwen_success = false) :
    collect_pairs r = [] := by
  simp [collect_pairs, h1, h2]

theorem compute_ensemble_result_nil (r : IntegratedEvaluationResult)
    (h : collect_pairs r = []) : compute_ensemble_result r = r := by
  unfold compute_ensemble_result
  simp [h]

theorem parse_text_response_score_cases (raw : String) :
    (parse_text_response raw).hallucination_score = 9/10 ∨
    (parse_text_response raw).hallucination_score = 3/5 ∨
    (parse_text_response raw).hallucination_score = 3/10 ∨
    (parse_text_response raw).hallucination_score = 1/10 ∨
    (parse_text_response raw).hallucination_score = 1/2 := by
  unfold parse_text_response
  dsimp only
  split
  · exact Or.inl rfl
  · split
    · exact Or.inr (Or.inl rfl)
    · split
      · exact Or.inr (Or.inr (Or.inl rfl))
      · split
        · exact Or.inr (Or.inr (Or.inr (Or.inl rfl)))
        · exact Or.inr (Or.inr (Or.inr (Or.inr rfl)))

/-! ## Claims -/

/-- C7: For every confusion tally, accuracy = (TP+TN)/(TP+FP+TN+FN),
precision = TP/(TP+FP), recall = TP/(TP+FN), f1 = 2·P·R/(P+R), every ratio
with zero denominator being 0; TP=3, FP=1, TN=4, FN=2 gives accuracy 7/10,
precision 3/4, recall 3/5, f1 = 2/3; TP=FP=0 gives precision 0. -/
theorem c7_confusion_metrics (m : EvaluationMetrics) :
    (m.true_positives + m.false_positives + m.true_negatives + m.false_negatives ≠ 0 →
      m.accuracy = ((m.true_positives + m.true_negatives : ℕ) : ℚ) /
        ((m.true_positives + m.false_positives + m.true_negatives +
          m.false_negatives : ℕ) : ℚ)) ∧
    (m.true_positives + m.false_positives + m.true_negatives + m.false_negatives = 0 →
      m.accuracy = 0) ∧
    (m.true_positives + m.false_positives ≠ 0 →
      m.precision = (m.true_positives : ℚ) /
        ((m.true_positives + m.false_positives : ℕ) : ℚ)) ∧
    (m.true_positives + m.false_positives = 0 → m.precision = 0) ∧
    (m.true_positives + m.false_negatives ≠ 0 →
      m.recall = (m.true_positives : ℚ) /
        ((m.true_positives + m.false_negatives : ℕ) : ℚ)) ∧
    (m.true_positives + m.false_negatives = 0 → m.recall = 0) ∧
    (m.precision + m.recall ≠ 0 →
      m.f1_score = 2 * (m.precision * m.recall) / (m.precision + m.recall)) ∧
    (m.precision + m.recall = 0 → m.f1_score = 0) ∧
    EvaluationMetrics.accuracy ⟨3, 1, 4, 2⟩ = 7/10 ∧
    EvaluationMetrics.precision ⟨3, 1, 4, 2⟩ = 3/4 ∧
    EvaluationMetrics.recall ⟨3, 1, 4, 2⟩ = 3/5 ∧
    EvaluationMetrics.f1_score ⟨3, 1, 4, 2⟩ = 2/3 := by
  refine ⟨?_, ?_, ?_, ?_, ?_, ?_, ?_, ?_, ?_, ?_, ?_, ?_⟩
  · intro h; simp [EvaluationMetrics.accuracy, h]
  · intro h; simp [EvaluationMetrics.accuracy, h]
  · intro h; simp [EvaluationMetrics.precision, h]
  · intro h; simp [EvaluationMetrics.precision, h]
  · intro h; simp [EvaluationMetrics.recall, h]
  · intro h; simp [EvaluationMetrics.recall, h]
  · intro h; simp [EvaluationMetrics.f1_score, h]
  · intro h; simp [EvaluationMetrics.f1_score, h]
  · norm_num [EvaluationMetrics.accuracy]
  · norm_num [EvaluationMetrics.precision]
  · norm_num [EvaluationMetrics.recall]
  · norm_num [EvaluationMetrics.f1_score, EvaluationMetrics.precision,
      EvaluationMetrics.recall]

/-- C7 witness: the theorem applied at a tally whose precision denominator
is zero and whose recall denominator is not. -/
theorem c7_confusion_metrics_witness :
    EvaluationMetrics.precision ⟨0, 0, 4, 2⟩ = 0 ∧
    EvaluationMetrics.accuracy ⟨3, 1, 4, 2⟩ = 7/10 := by
  refine ⟨?_, (c7_confusion_metrics ⟨3, 1, 4, 2⟩).2.2.2.2.2.2.2.2.1⟩
  exact (c7_confusion_metrics ⟨0, 0, 4, 2⟩).2.2.2.1 (by decide)

/-- C10: `get_samples` with `max_samples = None` or `= 0` returns the whole
filtered sample set, for every filter combination, seed and ambient
generator state: the sampling step runs only when `max_samples` is a
positive count smaller than the filtered set. -/
theorem c10_no_cap_returns_all (rng : ℕ) (responses : List RAGtruthResponse)
    (sources : List RAGtruthSource) (task_type : TaskType) (split : SplitType)
    (has_hallucination : Option Bool) (random_seed : Option ℕ) :
    get_samples rng responses sources task_type split has_hallucination none
      random_seed =
      filtered_samples responses sources task_type split has_hallucination ∧
    get_samples rng responses sources task_type split has_hallucination (some 0)
      random_seed =
      filtered_samples responses sources task_type split has_hallucination := by
  constructor
  · rfl
  · unfold get_samples
    simp

/-- C6: sampling is reproducible — with a given seed the selected subset
does not depend on the ambient generator state (so two calls with identical
filtered set, count and seed agree) — and a count at least the filtered
set size returns the whole filtered set. -/
theorem c6_sampling_reproducible (rng1 rng2 : ℕ)
    (responses : List RAGtruthResponse) (sources : List RAGtruthSource)
    (task_type : TaskType) (split : SplitType) (has_hallucination : Option Bool)
    (k seed : ℕ) :
    get_samples rng1 responses sources task_type split has_hallucination
      (some k) (some seed) =
    get_samples rng2 responses sources task_type split has_hallucination
      (some k) (some seed) ∧
    ((filtered_samples responses sources task_type split
        has_hallucination).length ≤ k →
      get_samples rng1 responses sources task_type split has_hallucination
        (some k) (some seed) =
      filtered_samples responses sources task_type split has_hallucination) := by
  constructor
  · rfl
  · intro h
    unfold get_samples
    have : ¬ ((filtered_samples responses sources task_type split
        has_hallucination).length > k) := by omega
    simp [this]

/-- Concrete response record used by the loader witnesses. -/
def respW : RAGtruthResponse :=
  { id := "r1", source_id := "s1", model := "m", temperature := 0,
    labels := [], split := "test", quality := "good", response := "text" }

/-- Concrete source record used by the loader witnesses. -/
def srcW : RAGtruthSource :=
  { source_id := "s1", task_type := "QA", source := "src",
    source_info := .str "info", prompt := "p" }

/-- C6 witness: a one-response dataset with cap 5 and seed 7 on two
different ambient states. -/
theorem c6_sampling_reproducible_witness :
    get_samples 0 [respW] [srcW] .ALL .ALL none (some 5) (some 7) =
      get_samples 99 [respW] [srcW] .ALL .ALL none (some 5) (some 7) ∧
    get_samples 0 [respW] [srcW] .ALL .ALL none (some 5) (some 7) =
      filtered_samples [respW] [srcW] .ALL .ALL none := by
  refine ⟨(c6_sampling_reproducible 0 99 _ _ _ _ _ 5 7).1,
    (c6_sampling_reproducible 0 99 _ _ _ _ _ 5 7).2 ?_⟩
  simp [filtered_samples, passes_filters, source_lookup, respW, srcW]

/-- C4: on an empty/whitespace candidate text, or a reference list that is
empty or entirely whitespace, both backend evaluates return success=false
with a non-empty error detail (and, being total functions of their inputs,
raise nothing). -/
theorem c4_input_validation (generated_text : String) (source_texts : List String)
    (ht : HHEMTransport) (qt : QwenTransport)
    (h : isBlank generated_text = true ∨ source_texts.all isBlank = true) :
    ((evaluate_consistency generated_text source_texts ht).success = false ∧
     ∃ msg, (evaluate_consistency generated_text source_texts ht).error_message =
        some msg ∧ msg ≠ "") ∧
    ((evaluate_hallucination generated_text source_texts qt).success = false ∧
     ∃ msg, (evaluate_hallucination generated_text source_texts qt).error_message =
        some msg ∧ msg ≠ "") := by
  by_cases hb : isBlank generated_text = true
  · constructor
    · unfold evaluate_consistency
      rw [if_pos hb]
      exact ⟨rfl, "生成文本不能为空", rfl, by decide⟩
    · unfold evaluate_hallucination
      rw [if_pos hb]
      exact ⟨rfl, "生成文本不能为空", rfl, by decide⟩
  · have hall : source_texts.all isBlank = true := by
      rcases h with h1 | h2
      · exact absurd h1 hb
      · exact h2
    have hcond : (source_texts.isEmpty || source_texts.all isBlank) = true := by
      simp [hall]
    have hb' : ¬ (isBlank generated_text = true) := hb
    constructor
    · unfold evaluate_consistency
      rw [if_neg hb', if_pos hcond]
      exact ⟨rfl, "源文本不能为空", rfl, by decide⟩
    · unfold evaluate_hallucination
      rw [if_neg hb', if_pos hcond]
      exact ⟨rfl, "参考文档不能为空", rfl, by decide⟩

/-- C4 witness: candidate "hi" with a whitespace-only reference list, on a
transport that would have succeeded. -/
theorem c4_input_validation_witness :
    (evaluate_consistency "hi" [" "] (.ok (1/2))).success = false ∧
    (evaluate_hallucination "hi" [" "] (.ok (.json (1/2) (1/2) "e"))).success =
      false := by
  have h := c4_input_validation "hi" [" "] (.ok (1/2))
    (.ok (.json (1/2) (1/2) "e")) (Or.inr (by decide))
  exact ⟨h.1.1, h.2.1⟩

/-- C3 counterexample: a raw model answer containing none of the fallback
keywords ("hello") yields hallucination_score 0.5, which is none of the four
band values 0.9, 0.6, 0.3, 0.1 the claim allows. -/
theorem c3_counterexample :
    (evaluate_hallucination "a" ["b"] (.ok (.text "hello"))).success = true ∧
    (evaluate_hallucination "a" ["b"] (.ok (.text "hello"))).confidence = 7/10 ∧
    (evaluate_hallucination "a" ["b"] (.ok (.text "hello"))).hallucination_score =
      1/2 ∧
    ¬ ((evaluate_hallucination "a" ["b"] (.ok (.text "hello"))).hallucination_score
          = 9/10 ∨
       (evaluate_hallucination "a" ["b"] (.ok (.text "hello"))).hallucination_score
          = 3/5 ∨
       (evaluate_hallucination "a" ["b"] (.ok (.text "hello"))).hallucination_score
          = 3/10 ∨
       (evaluate_hallucination "a" ["b"] (.ok (.text "hello"))).hallucination_score
          = 1/10) := by
  have hs : (evaluate_hallucination "a" ["b"]
      (.ok (.text "hello"))).hallucination_score = 1/2 := rfl
  refine ⟨rfl, rfl, hs, ?_⟩
  rw [hs]
  norm_num

/-- C3 amended: on an unparsable model answer the keyword fallback reports
success=true with confidence exactly 0.7, and a hallucination_score that is
one of the four band values 0.9, 0.6, 0.3, 0.1 — or the default 0.5 when no
keyword matches. -/
theorem c3_keyword_fallback_amended (generated_text : String)
    (source_texts : List String) (raw : String)
    (h1 : isBlank generated_text = false)
    (h2 : (source_texts.isEmpty || source_texts.all isBlank) = false) :
    (evaluate_hallucination generated_text source_texts (.ok (.text raw))).success
      = true ∧
    (evaluate_hallucination generated_text source_texts
      (.ok (.text raw))).confidence = 7/10 ∧
    ((evaluate_hallucination generated_text source_texts
        (.ok (.text raw))).hallucination_score = 9/10 ∨
     (evaluate_hallucination generated_text source_texts
        (.ok (.text raw))).hallucination_score = 3/5 ∨
     (evaluate_hallucination generated_text source_texts
        (.ok (.text raw))).hallucination_score = 3/10 ∨
     (evaluate_hallucination generated_text source_texts
        (.ok (.text raw))).hallucination_score = 1/10 ∨
     (evaluate_hallucination generated_text source_texts
        (.ok (.text raw))).hallucination_score = 1/2) := by
  have hev : evaluate_hallucination generated_text source_texts (.ok (.text raw)) =
      parse_text_response raw := by
    unfold evaluate_hallucination
    simp only [h1, Bool.false_eq_true, if_false, h2]
  rw [hev]
  exact ⟨rfl, rfl, parse_text_response_score_cases raw⟩

/-- C3 amended witness: candidate "a", reference ["b"], raw answer
"基本准确" hits the 0.3 band. -/
theorem c3_keyword_fallback_amended_witness :
    (evaluate_hallucination "a" ["b"] (.ok (.text "基本准确"))).success = true ∧
    (evaluate_hallucination "a" ["b"] (.ok (.text "基本准确"))).confidence = 7/10 := by
  have h := c3_keyword_fallback_amended "a" ["b"] "基本准确" (by decide) (by decide)
  exact ⟨h.1, h.2.1⟩

/-- C1 (code bug): the two dataset harnesses disagree on the HHEM_ONLY
threshold direction.  At consistency score 0.9 (which the system itself
interprets as highly consistent) and threshold 0.5,
`ragtruth_large_scale_evaluation.py` predicts no hallucination (score below
threshold ⇒ hallucination, as the claim states), while
`ragtruth_evaluation.py` predicts hallucination (score above threshold),
contradicting the claim and the HHEM score documentation. -/
theorem c1_threshold_direction_code_bug :
    evaluate_samples_decision (1/2) (1/5) .HHEM_ONLY
      { method_used := .HHEM_ONLY, hhem_success := true,
        hhem_score := some (9/10) } = some (9/10, false) ∧
    evaluate_on_dataset_decision (1/2) .HHEM_ONLY
      { method_used := .HHEM_ONLY, hhem_success := true,
        hhem_score := some (9/10) } = (true, some (9/10)) ∧
    ¬ ((9 : ℚ)/10 < 1/2) ∧
    hhem_interpret_score (9/10) = "高度一致 - 生成文本与源文本在事实上高度符合" := by
  refine ⟨?_, ?_, by norm_num, ?_⟩
  · simp [evaluate_samples_decision]
    norm_num
  · simp [evaluate_on_dataset_decision]
    norm_num
  · have : ((9 : ℚ)/10 ≥ 4/5) := by norm_num
    simp [hhem_interpret_score, this]

theorem pySample_subset {α : Type} (k : ℕ) :
    ∀ (st : ℕ) (l : List α), ∀ x ∈ pySample st l k, x ∈ l := by
  induction k with
  | zero => intro st l x hx; simp [pySample] at hx
  | succ n ih =>
      intro st l x hx
      unfold pySample at hx
      by_cases he : l.isEmpty = true
      · rw [if_pos he] at hx
        simp at hx
      · rw [if_neg he] at hx
        rcases List.mem_append.1 hx with hm | hm
        · rcases Option.mem_toList.1 hm with hget
          exact List.getElem?_mem hget
        · exact List.eraseIdx_subset _ _ (ih _ _ x hm)

theorem filtered_samples_mem (responses : List RAGtruthResponse)
    (sources : List RAGtruthSource) (task_type : TaskType) (split : SplitType)
    (has_hallucination : Option Bool) (smp : RAGtruthSample)
    (h : smp ∈ filtered_samples responses sources task_type split
      has_hallucination) :
    smp.source.source_id = smp.response.source_id ∧ smp.source ∈ sources := by
  unfold filtered_samples at h
  rcases List.mem_filterMap.1 h with ⟨r, _, hmap⟩
  rcases Option.map_eq_some'.1 hmap with ⟨s, hfind, hmk⟩
  have hsid : s.source_id = r.source_id := by
    have := List.find?_some hfind
    exact of_decide_eq_true this
  have hmem : s ∈ sources := List.mem_reverse.1 (List.mem_of_find?_eq_some hfind)
  subst hmk
  exact ⟨hsid, hmem⟩

/-- C8: every sample returned by `get_samples`, for any combination of
filters, cap and seed, pairs a response with a source record of matching
`source_id` drawn from the loaded sources; a response with no matching
source record never appears. -/
theorem c8_join_invariant (rng : ℕ) (responses : List RAGtruthResponse)
    (sources : List RAGtruthSource) (task_type : TaskType) (split : SplitType)
    (has_hallucination : Option Bool) (max_samples : Option ℕ)
    (random_seed : Option ℕ) (smp : RAGtruthSample)
    (h : smp ∈ get_samples rng responses sources task_type split
      has_hallucination max_samples random_seed) :
    smp.source.source_id = smp.response.source_id ∧ smp.source ∈ sources := by
  unfold get_samples at h
  rcases max_samples with _ | m
  · exact filtered_samples_mem _ _ _ _ _ _ h
  · dsimp only at h
    by_cases hc : m ≠ 0 ∧ (filtered_samples responses sources task_type split
        has_hallucination).length > m
    · rw [if_pos hc] at h
      exact filtered_samples_mem _ _ _ _ _ _ (pySample_subset _ _ _ _ h)
    · rw [if_neg hc] at h
      exact filtered_samples_mem _ _ _ _ _ _ h

/-- C8 witness: the single joined sample of a one-response dataset. -/
theorem c8_join_invariant_witness :
    (RAGtruthSample.mk srcW respW).source.source_id =
      (RAGtruthSample.mk srcW respW).response.source_id ∧
    (RAGtruthSample.mk srcW respW).source ∈ [srcW] :=
  c8_join_invariant 0 [respW] [srcW] .ALL .ALL none none none
    (RAGtruthSample.mk srcW respW) (List.Mem.head _)

theorem evaluate_unfold (gt : String) (sts : List String)
    (m : EvaluationMethod) (he : Option HHEMTransport) (qe : Option QwenTransport) :
    evaluate gt sts m he qe =
      set_overall_success m (if m = .ENSEMBLE
        then compute_ensemble_result (run_qwen_branch gt sts m qe
          (run_hhem_branch gt sts m he { method_used := m }))
        else run_qwen_branch gt sts m qe
          (run_hhem_branch gt sts m he { method_used := m })) := rfl

theorem pre_stage_ensemble_none (gt : String) (sts : List String)
    (m : EvaluationMethod) (he : Option HHEMTransport) (qe : Option QwenTransport) :
    (run_qwen_branch gt sts m qe
      (run_hhem_branch gt sts m he { method_used := m })).ensemble_score = none := by
  rw [(run_qwen_branch_hhem_fields _ _ _ _ _).2.2.1,
    (run_hhem_branch_qwen_fields _ _ _ _ _).2.2.2.1]

/-- C5: for every evaluate call with method ENSEMBLE or BOTH, the overall
success flag is true iff at least one backend succeeded (false iff all
failed), and when no backend succeeded no ensemble score is produced. -/
theorem c5_ensemble_success_iff (generated_text : String)
    (source_texts : List String) (method : EvaluationMethod)
    (hhem_evaluator : Option HHEMTransport) (qwen_evaluator : Option QwenTransport)
    (r : IntegratedEvaluationResult)
    (hr : r = evaluate generated_text source_texts method hhem_evaluator
      qwen_evaluator)
    (hm : method = .BOTH ∨ method = .ENSEMBLE) :
    (r.success = true ↔ (r.hhem_success = true ∨ r.qwen_success = true)) ∧
    (r.hhem_success = false → r.qwen_success = false → r.ensemble_score = none) := by
  have hensR := pre_stage_ensemble_none generated_text source_texts method
    hhem_evaluator qwen_evaluator
  subst hr
  rw [evaluate_unfold]
  rcases hm with hm | hm <;> subst hm
  · rw [if_neg (by decide : ¬ (EvaluationMethod.BOTH = .ENSEMBLE))]
    generalize run_qwen_branch generated_text source_texts .BOTH qwen_evaluator
      (run_hhem_branch generated_text source_texts .BOTH hhem_evaluator
        { method_used := .BOTH }) = R at hensR ⊢
    constructor
    · simp [set_overall_success]
    · intro _ _
      exact hensR
  · rw [if_pos rfl]
    generalize run_qwen_branch generated_text source_texts .ENSEMBLE qwen_evaluator
      (run_hhem_branch generated_text source_texts .ENSEMBLE hhem_evaluator
        { method_used := .ENSEMBLE }) = R at hensR ⊢
    have hpres := compute_ensemble_result_preserved R
    constructor
    · simp [set_overall_success]
    · intro hh hq
      have hh2 : R.hhem_success = false := by rw [← hpres.1]; exact hh
      have hq2 : R.qwen_success = false := by rw [← hpres.2.2.1]; exact hq
      have hnil := compute_ensemble_result_nil R (collect_pairs_nil R hh2 hq2)
      show (compute_ensemble_result R).ensemble_score = none
      rw [hnil]
      exact hensR

/-- C5 witness: ENSEMBLE call where both backends fail (timeout and SDK
exception): success is false and no ensemble score exists. -/
theorem c5_ensemble_success_iff_witness :
    ((evaluate "t" ["s"] .ENSEMBLE (some .timeout) (some (.exn "x"))).success = true ↔
      ((evaluate "t" ["s"] .ENSEMBLE (some .timeout) (some (.exn "x"))).hhem_success
        = true ∨
       (evaluate "t" ["s"] .ENSEMBLE (some .timeout) (some (.exn "x"))).qwen_success
        = true)) ∧
    (evaluate "t" ["s"] .ENSEMBLE (some .timeout) (some (.exn "x"))).ensemble_score
      = none := by
  have h := c5_ensemble_success_iff "t" ["s"] .ENSEMBLE (some .timeout)
    (some (.exn "x")) _ rfl (Or.inr rfl)
  exact ⟨h.1, h.2 rfl rfl⟩

theorem compute_ensemble_both (x : IntegratedEvaluationResult)
    (h1 : x.hhem_success = true) (hs : ℚ) (hhs : x.hhem_score = some hs)
    (h2 : x.qwen_success = true) (qs : ℚ)
    (hqs : x.qwen_hallucination_score = some qs)
    (hc : 0 ≤ pyOrConf x.qwen_confidence (7/10)) :
    (compute_ensemble_result x).ensemble_score =
      some (((1 - hs) * (9/10) + qs * pyOrConf x.qwen_confidence (7/10)) /
        (9/10 + pyOrConf x.qwen_confidence (7/10))) ∧
    (compute_ensemble_result x).ensemble_confidence =
      some ((9/10 + pyOrConf x.qwen_confidence (7/10)) / 2) := by
  have hcp : collect_pairs x =
      [(1 - hs, (9:ℚ)/10), (qs, pyOrConf x.qwen_confidence (7/10))] := by
    simp [collect_pairs, h1, hhs, h2, hqs]
  have hw : (0:ℚ) < 9/10 + pyOrConf x.qwen_confidence (7/10) := by linarith
  unfold compute_ensemble_result
  rw [hcp]
  simp [hw]

/-- C2: in an ENSEMBLE evaluate call where both backends succeed, with
severity s1 = 1 − hhem_score, s2 = qwen_hallucination_score and combiner
confidences c1 = 0.9 (fixed for HHEM) and c2 = reported Qwen confidence
(0.7 when it is None or 0.0), the ensemble score is the confidence-weighted
mean (s1·c1 + s2·c2)/(c1 + c2), the ensemble confidence is (c1 + c2)/2, and
were both weights zero the score would be the unweighted mean (vacuous,
since c1 = 0.9). -/
theorem c2_ensemble_weighted_mean (generated_text : String)
    (source_texts : List String) (ht : HHEMTransport) (qt : QwenTransport)
    (r : IntegratedEvaluationResult)
    (hr : r = evaluate generated_text source_texts .ENSEMBLE (some ht) (some qt))
    (h1 : r.hhem_success = true) (h2 : r.qwen_success = true)
    (hs qs : ℚ) (hhs : r.hhem_score = some hs)
    (hqs : r.qwen_hallucination_score = some qs)
    (hc : 0 ≤ pyOrConf r.qwen_confidence (7/10)) :
    r.ensemble_score =
      some (((1 - hs) * (9/10) + qs * pyOrConf r.qwen_confidence (7/10)) /
        (9/10 + pyOrConf r.qwen_confidence (7/10))) ∧
    r.ensemble_confidence =
      some ((9/10 + pyOrConf r.qwen_confidence (7/10)) / 2) ∧
    (((9:ℚ)/10 = 0 ∧ pyOrConf r.qwen_confidence (7/10) = 0) →
      r.ensemble_score = some (((1 - hs) + qs) / 2)) := by
  subst hr
  rw [evaluate_unfold, if_pos rfl] at h1 h2 hhs hqs hc ⊢
  generalize run_qwen_branch generated_text source_texts .ENSEMBLE (some qt)
    (run_hhem_branch generated_text source_texts .ENSEMBLE (some ht)
      { method_used := .ENSEMBLE }) = R at h1 h2 hhs hqs hc ⊢
  have hpres := compute_ensemble_result_preserved R
  have h1' : R.hhem_success = true := by rw [← hpres.1]; exact h1
  have h2' : R.qwen_success = true := by rw [← hpres.2.2.1]; exact h2
  have hhs' : R.hhem_score = some hs := by rw [← hpres.2.1]; exact hhs
  have hqs' : R.qwen_hallucination_score = some qs := by
    rw [← hpres.2.2.2.1]; exact hqs
  have hc' : 0 ≤ pyOrConf R.qwen_confidence (7/10) := by
    rw [← hpres.2.2.2.2]; exact hc
  have hqc : (set_overall_success .ENSEMBLE
      (compute_ensemble_result R)).qwen_confidence = R.qwen_confidence :=
    hpres.2.2.2.2
  have hesc : (set_overall_success .ENSEMBLE
      (compute_ensemble_result R)).ensemble_score =
      (compute_ensemble_result R).ensemble_score := rfl
  have hecf : (set_overall_success .ENSEMBLE
      (compute_ensemble_result R)).ensemble_confidence =
      (compute_ensemble_result R).ensemble_confidence := rfl
  rw [hqc, hesc, hecf]
  obtain ⟨ha, hb⟩ := compute_ensemble_both R h1' hs hhs' h2' qs hqs' hc'
  refine ⟨ha, hb, ?_⟩
  rintro ⟨h910, _⟩
  exact absurd h910 (by norm_num)

/-- C2 witness: HHEM consistency 0.5 and Qwen severity 0.3 with confidence
0.8 give ensemble score (0.5·0.9 + 0.3·0.8)/(0.9 + 0.8) and confidence
(0.9 + 0.8)/2. -/
theorem c2_ensemble_weighted_mean_witness :
    (evaluate "a" ["b"] .ENSEMBLE (some (.ok (1/2)))
      (some (.ok (.json (3/10) (4/5) "e")))).ensemble_score =
      some (((1 - 1/2) * (9/10) +
        (3/10) * pyOrConf (evaluate "a" ["b"] .ENSEMBLE (some (.ok (1/2)))
          (some (.ok (.json (3/10) (4/5) "e")))).qwen_confidence (7/10)) /
        (9/10 + pyOrConf (evaluate "a" ["b"] .ENSEMBLE (some (.ok (1/2)))
          (some (.ok (.json (3/10) (4/5) "e")))).qwen_confidence (7/10))) ∧
    (evaluate "a" ["b"] .ENSEMBLE (some (.ok (1/2)))
      (some (.ok (.json (3/10) (4/5) "e")))).ensemble_confidence =
      some ((9/10 + pyOrConf (evaluate "a" ["b"] .ENSEMBLE (some (.ok (1/2)))
        (some (.ok (.json (3/10) (4/5) "e")))).qwen_confidence (7/10)) / 2) := by
  have hqc : (evaluate "a" ["b"] .ENSEMBLE (some (.ok (1/2)))
      (some (.ok (.json (3/10) (4/5) "e")))).qwen_confidence = some (4/5) := rfl
  have hc : 0 ≤ pyOrConf (evaluate "a" ["b"] .ENSEMBLE (some (.ok (1/2)))
      (some (.ok (.json (3/10) (4/5) "e")))).qwen_confidence (7/10) := by
    rw [hqc]
    simp [pyOrConf]
    norm_num
  have h := c2_ensemble_weighted_mean "a" ["b"] (.ok (1/2))
    (.ok (.json (3/10) (4/5) "e")) _ rfl rfl rfl (1/2) (3/10) rfl rfl hc
  exact ⟨h.1, h.2.1⟩

/-- C9: when the Qwen backend succeeds but reports confidence 0.0 or None,
the combiner uses 0.7 as its weight and reported confidence, every
contributing weight is at least 0.7, the weight sum is positive, and with
two contributors the score is the weighted mean (the unweighted-mean
fallback branch is not taken). -/
theorem c9_zero_qwen_confidence (r : IntegratedEvaluationResult)
    (h1 : r.qwen_success = true) (qs : ℚ)
    (hqs : r.qwen_hallucination_score = some qs)
    (hc : r.qwen_confidence = none ∨ r.qwen_confidence = some 0) :
    ((qs, (7:ℚ)/10) ∈ collect_pairs r) ∧
    (∀ p ∈ collect_pairs r, (7:ℚ)/10 ≤ p.2) ∧
    (0 < ((collect_pairs r).map Prod.snd).sum) ∧
    (1 < (collect_pairs r).length →
      (compute_ensemble_result r).ensemble_score =
        some ((((collect_pairs r).map (fun p => p.1 * p.2)).sum) /
          (((collect_pairs r).map Prod.snd).sum))) := by
  have hpy : pyOrConf r.qwen_confidence (7/10) = 7/10 := by
    rcases hc with h | h <;> simp [pyOrConf, h]
  have hcp : collect_pairs r =
      (if r.hhem_success then
         match r.hhem_score with
         | some s => [(1 - s, (9:ℚ)/10)]
         | none => []
       else []) ++ [(qs, (7:ℚ)/10)] := by
    simp [collect_pairs, h1, hqs, hpy]
  cases hh : r.hhem_success with
  | false =>
      rw [hh] at hcp
      simp only [Bool.false_eq_true, if_false, List.nil_append] at hcp
      rw [hcp]
      refine ⟨by simp, ?_, by simp, ?_⟩
      · intro p hp
        simp at hp
        subst hp
        norm_num
      · intro hlen
        simp at hlen
  | true =>
      rw [hh, if_pos rfl] at hcp
      cases hsc : r.hhem_score with
      | none =>
          rw [hsc] at hcp
          simp only [List.nil_append] at hcp
          rw [hcp]
          refine ⟨by simp, ?_, by simp, ?_⟩
          · intro p hp
            simp at hp
            subst hp
            norm_num
          · intro hlen
            simp at hlen
      | some s =>
          rw [hsc] at hcp
          simp only [List.cons_append, List.nil_append] at hcp
          rw [hcp]
          refine ⟨by simp, ?_, by simp; norm_num, ?_⟩
          · intro p hp
            simp at hp
            rcases hp with hp | hp <;> subst hp <;> norm_num
          · intro _
            unfold compute_ensemble_result
            rw [hcp]
            have hw : (0:ℚ) < 9/10 + 7/10 := by norm_num
            simp [hw]

/-- C9 witness: both backends succeed, HHEM score 0.2, Qwen severity 0.5
with reported confidence 0.0. -/
theorem c9_zero_qwen_confidence_witness :
    (((1:ℚ)/2, (7:ℚ)/10) ∈ collect_pairs
      { method_used := .ENSEMBLE, hhem_success := true, hhem_score := some (1/5),
        qwen_success := true, qwen_hallucination_score := some (1/2),
        qwen_confidence := some 0 }) ∧
    (0 < ((collect_pairs
      { method_used := .ENSEMBLE, hhem_success := true, hhem_score := some (1/5),
        qwen_success := true, qwen_hallucination_score := some (1/2),
        qwen_confidence := some 0 }).map Prod.snd).sum) := by
  have h := c9_zero_qwen_confidence
    { method_used := .ENSEMBLE, hhem_success := true, hhem_score := some (1/5),
      qwen_success := true, qwen_hallucination_score := some (1/2),
      qwen_confidence := some 0 } rfl (1/2) rfl (Or.inr rfl)
  exact ⟨h.1, h.2.2.1⟩

end IHDS
